import Mathlib

/-!
Verification development for the DraftSensei backend draft engines.

The definitions below are a shallow embedding of the two scoring engines of
the repository:

* app/services/meta_draft_engine.py  (class MetaDraftEngine), and
* app/services/draft_engine.py together with app/services/synergy.py
  (class DraftEngine and the hardcoded SynergySystem tables).

Python floats are modelled as rationals; hero attribute dictionaries are
modelled as records of optional rationals, so that a call x.get(key, d)
becomes (field).getD d, faithfully keeping the distinction between a missing
key and a present value.  Database-backed tables (the hero catalog, match
history, player preferences) are parameters of the embedded functions.
-/

set_option autoImplicit false

namespace DraftSensei

/-- Combat attribute block of a hero meta record (keys may be absent). -/
structure Combat where
  burst_damage : Option ℚ := none
  sustained_damage : Option ℚ := none
  dps : Option ℚ := none
  aoe_damage : Option ℚ := none
  anti_squishy : Option ℚ := none
  anti_tank : Option ℚ := none
  poke : Option ℚ := none
deriving Repr, Inhabited

/-- Survivability attribute block of a hero meta record. -/
structure Survivability where
  tankiness : Option ℚ := none
  mobility : Option ℚ := none
  escape : Option ℚ := none
  shields : Option ℚ := none
  regen : Option ℚ := none
deriving Repr, Inhabited

/-- Utility attribute block of a hero meta record. -/
structure Utility where
  crowd_control : Option ℚ := none
  team_heal : Option ℚ := none
  team_buff : Option ℚ := none
deriving Repr, Inhabited

/-- Range and playstyle attribute block of a hero meta record. -/
structure RangePlaystyle where
  range : Option ℚ := none
  engage : Option ℚ := none
  peel : Option ℚ := none
  waveclear : Option ℚ := none
deriving Repr, Inhabited

/-- Power curve attribute block of a hero meta record. -/
structure PowerCurve where
  early_game : Option ℚ := none
  mid_game : Option ℚ := none
  late_game : Option ℚ := none
  scaling : Option ℚ := none
deriving Repr, Inhabited

/-- Role block: primary role name and the ordered lane affinity list. -/
structure Roles where
  primary_role : Option String := none
  lane_priority : Option (List String) := none
deriving Repr, Inhabited

/-- A hero meta attribute bundle, mirroring the nested attribute dictionary
stored per hero and read by MetaDraftEngine.  A missing sub-dictionary is
behaviourally identical to a sub-record whose fields are all none, because
the engine reads every key with a call of the form get(key, default). -/
structure Meta where
  combat : Combat := {}
  survivability : Survivability := {}
  utility : Utility := {}
  range_playstyle : RangePlaystyle := {}
  power_curve : PowerCurve := {}
  roles : Roles := {}
deriving Repr, Inhabited

/-- The in-memory hero catalog heroes_data: an insertion-ordered map from
hero name to meta bundle (Python dict keys are unique; candidate iteration
follows this order). -/
abbrev Catalog := List (String × Meta)

/-- First-match association list lookup, the model of a Python dict read. -/
def alistLookup {α : Type} : List (String × α) → String → Option α
  | [], _ => none
  | (k, v) :: rest, n => if k = n then some v else alistLookup rest n

/-- role_map of MetaDraftEngine, as a partial map (dict.get with no default). -/
def roleMapOpt : String → Option String
  | "exp" => some "EXP Lane"
  | "jungle" => some "Jungle"
  | "mid" => some "Mid Lane"
  | "gold" => some "Gold Lane"
  | "roam" => some "Roam"
  | _ => none

/-- role_map.get(current_role, current_role). -/
def roleMapD (r : String) : String := (roleMapOpt r).getD r

/-- Positional scan behind calculate_role_fit_score: the Python code tests
membership of the target lane and then takes the index of its first
occurrence, which this single scan computes directly. -/
def laneFitAux : List String → String → Nat → ℚ
  | [], _, _ => 5
  | l :: ls, target, i =>
    if l = target then
      if i = 0 then 100 else if i = 1 then 75 else if i = 2 then 50 else 30
    else laneFitAux ls target (i + 1)

/-- Embedding of MetaDraftEngine. calculate_role_fit_score. -/
def calcRoleFitScore (hero : Meta) (currentRole : String) : ℚ :=
  laneFitAux (hero.roles.lane_priority.getD []) (roleMapD currentRole) 0

/-- Embedding of MetaDraftEngine. calculate_diversity_penalty; the argument
is suggestion_count.get(hero_name, 0). -/
def diversityPenalty (count : Nat) : ℚ :=
  if count = 0 then 0
  else if count ≤ 2 then 5 / 100
  else if count ≤ 4 then 10 / 100
  else 15 / 100

/-- Anti-squishy heuristic block of calculate_counter_score. -/
def antiSquishyPts (hero enemy : Meta) : ℚ :=
  let et := enemy.survivability.tankiness.getD 3
  let asq := hero.combat.anti_squishy.getD 0
  if et ≤ 2 ∧ 4 ≤ asq then asq * 5
  else if et ≤ 2 ∧ 3 ≤ asq then asq * 3
  else 0

/-- Anti-tank heuristic block of calculate_counter_score. -/
def antiTankPts (hero enemy : Meta) : ℚ :=
  let et := enemy.survivability.tankiness.getD 3
  let atk := hero.combat.anti_tank.getD 0
  if 4 ≤ et ∧ 4 ≤ atk then atk * 5
  else if 4 ≤ et ∧ 3 ≤ atk then atk * 3
  else 0

/-- Mobility-versus-lockdown heuristic block of calculate_counter_score. -/
def mobilityPts (hero enemy : Meta) : ℚ :=
  let ecc := enemy.utility.crowd_control.getD 0
  let mob := hero.survivability.mobility.getD 0
  let esc := hero.survivability.escape.getD 0
  if 4 ≤ ecc ∧ (4 ≤ mob ∨ 4 ≤ esc) then 20
  else if 3 ≤ ecc ∧ (3 ≤ mob ∨ 3 ≤ esc) then 10
  else 0

/-- Poke-versus-short-range heuristic block of calculate_counter_score. -/
def pokePts (hero enemy : Meta) : ℚ :=
  let er := enemy.range_playstyle.range.getD 3
  let poke := hero.combat.poke.getD 0
  if er ≤ 2 ∧ 4 ≤ poke then poke * 4
  else if er ≤ 2 ∧ 3 ≤ poke then poke * 2
  else 0

/-- Engage-versus-low-mobility heuristic block of calculate_counter_score. -/
def engagePts (hero enemy : Meta) : ℚ :=
  let em := enemy.survivability.mobility.getD 3
  let eng := hero.range_playstyle.engage.getD 0
  if em ≤ 2 ∧ 4 ≤ eng then eng * 4 else 0

/-- Burst-versus-low-defense heuristic block of calculate_counter_score. -/
def burstPts (hero enemy : Meta) : ℚ :=
  let esh := enemy.survivability.shields.getD 0
  let erg := enemy.survivability.regen.getD 0
  let burst := hero.combat.burst_damage.getD 0
  if esh + erg ≤ 3 ∧ 4 ≤ burst then burst * 4
  else if esh + erg ≤ 3 ∧ 3 ≤ burst then burst * 2
  else 0

/-- counter_points accumulated for one enemy in calculate_counter_score. -/
def counterPoints (hero enemy : Meta) : ℚ :=
  antiSquishyPts hero enemy + antiTankPts hero enemy + mobilityPts hero enemy
    + pokePts hero enemy + engagePts hero enemy + burstPts hero enemy

/-- total / count if count greater than zero else 60.0 — the aggregation
shared by the two per-opponent score loops (the count of processed opponents
equals the length of the list of their capped point totals). -/
def meanOr60 (l : List ℚ) : ℚ :=
  if 0 < l.length then l.sum / l.length else 60

/-- Embedding of MetaDraftEngine. calculate_counter_score: neutral 60 with no
enemy picks, otherwise the mean over the enemies found in the catalog of the
per-enemy points capped at 100 (60 again when no enemy name is known). -/
def calcCounterScore (catalog : Catalog) (hero : Meta) (enemyPicks : List String) : ℚ :=
  if enemyPicks = [] then 60
  else meanOr60 ((enemyPicks.filterMap (alistLookup catalog)).map
    (fun e => min (counterPoints hero e) 100))

/-- synergy_points accumulated for one ally in calculate_synergy_score. -/
def synergyPoints (hero ally : Meta) : ℚ :=
  (if 4 ≤ hero.survivability.tankiness.getD 0 ∧ 4 ≤ ally.combat.dps.getD 0 then 20 else 0)
  + (if 4 ≤ hero.range_playstyle.engage.getD 0 ∧ 4 ≤ ally.combat.aoe_damage.getD 0 then 25 else 0)
  + (if 3 ≤ hero.utility.crowd_control.getD 0 ∧ 4 ≤ ally.combat.burst_damage.getD 0 then 20 else 0)
  + (if 3 ≤ hero.range_playstyle.peel.getD 0 ∧ ally.survivability.tankiness.getD 3 ≤ 2 then 18 else 0)
  + (if (3 ≤ hero.utility.team_heal.getD 0 ∨ 3 ≤ hero.utility.team_buff.getD 0)
        ∧ 4 ≤ ally.combat.sustained_damage.getD 0 then 22 else 0)
  + (if 4 ≤ hero.range_playstyle.engage.getD 0 ∧ 4 ≤ ally.range_playstyle.engage.getD 0 then 15 else 0)
  + (if 4 ≤ hero.survivability.mobility.getD 0 ∧ 4 ≤ ally.survivability.mobility.getD 0 then 12 else 0)

/-- Embedding of MetaDraftEngine. calculate_synergy_score. -/
def calcSynergyScore (catalog : Catalog) (hero : Meta) (allyPicks : List String) : ℚ :=
  if allyPicks = [] then 60
  else meanOr60 ((allyPicks.filterMap (alistLookup catalog)).map
    (fun a => min (synergyPoints hero a) 100))

/-- Clamp used at the end of calculate_team_composition_score:
max(min(score, 100), 0). -/
def clamp0100 (x : ℚ) : ℚ := max (min x 100) 0

/-- Final-line combinator of calculate_team_composition_score. -/
def compScoreOf (maxGaps filled : ℚ) : ℚ :=
  if maxGaps = 0 then 60 else clamp0100 (filled / maxGaps * 100)

/-- Embedding of MetaDraftEngine. calculate_team_composition_score.  The team
statistics are summed over allies present in the catalog; the gap checks and
the same-role redundancy penalty follow the source line by line. -/
def calcCompScore (catalog : Catalog) (hero : Meta) (allyPicks : List String) : ℚ :=
  let mates := allyPicks.filterMap (alistLookup catalog)
  let tank := (mates.map (fun a => a.survivability.tankiness.getD 0)).sum
  let cc := (mates.map (fun a => a.utility.crowd_control.getD 0)).sum
  let eng := (mates.map (fun a => a.range_playstyle.engage.getD 0)).sum
  let wave := (mates.map (fun a => a.range_playstyle.waveclear.getD 0)).sum
  let peel := (mates.map (fun a => a.range_playstyle.peel.getD 0)).sum
  let sustained := (mates.map (fun a => a.combat.sustained_damage.getD 0)).sum
  let magic := (mates.map (fun a =>
    if a.roles.primary_role.getD "" = "Mage" then a.combat.dps.getD 0 else 0)).sum
  let physical := (mates.map (fun a =>
    if a.roles.primary_role.getD "" = "Mage" then 0 else a.combat.dps.getD 0)).sum
  let g1 : ℚ × ℚ :=
    if 2 ≤ allyPicks.length ∧ tank < 8 then
      (15, if 4 ≤ hero.survivability.tankiness.getD 0 then 15 else 0) else (0, 0)
  let g2 : ℚ × ℚ :=
    if magic < 10 then
      (15, if hero.roles.primary_role = some "Mage" then 15 else 0) else (0, 0)
  let g3 : ℚ × ℚ :=
    if physical < 10 then
      (15, if hero.roles.primary_role = some "Marksman" ∨ hero.roles.primary_role = some "Assassin"
              ∨ hero.roles.primary_role = some "Fighter" then 15 else 0) else (0, 0)
  let g4 : ℚ × ℚ :=
    if cc < 5 then (10, if 3 ≤ hero.utility.crowd_control.getD 0 then 10 else 0) else (0, 0)
  let g5 : ℚ × ℚ :=
    if eng < 8 then (12, if 4 ≤ hero.range_playstyle.engage.getD 0 then 12 else 0) else (0, 0)
  let g6 : ℚ × ℚ :=
    if wave < 8 then (8, if 4 ≤ hero.range_playstyle.waveclear.getD 0 then 8 else 0) else (0, 0)
  let g7 : ℚ × ℚ :=
    if 12 ≤ sustained ∧ peel < 6 then
      (10, if 3 ≤ hero.range_playstyle.peel.getD 0 then 10 else 0) else (0, 0)
  let maxGaps := g1.1 + g2.1 + g3.1 + g4.1 + g5.1 + g6.1 + g7.1
  let filled0 := g1.2 + g2.2 + g3.2 + g4.2 + g5.2 + g6.2 + g7.2
  let heroRole := hero.roles.primary_role.getD ""
  let roleCount := (allyPicks.filter (fun n =>
    match alistLookup catalog n with
    | some m => m.roles.primary_role == some heroRole
    | none => false)).length
  let filled := if 2 ≤ roleCount then filled0 - 15 else filled0
  compScoreOf maxGaps filled

/-- Pre-penalty priority value of calculate_pick_priority_score. -/
def pickPriorityRaw (hero : Meta) : ℚ :=
  let combatScore := (hero.combat.burst_damage.getD 0 + hero.combat.sustained_damage.getD 0
    + hero.combat.dps.getD 0 + hero.combat.aoe_damage.getD 0) / 4
  let survScore := (hero.survivability.tankiness.getD 0 + hero.survivability.mobility.getD 0
    + hero.survivability.escape.getD 0) / 3
  let powerScore := hero.power_curve.early_game.getD 0 * 0.2
    + hero.power_curve.mid_game.getD 0 * 0.35
    + hero.power_curve.late_game.getD 0 * 0.35
    + hero.power_curve.scaling.getD 0 * 0.1
  let utilityScore := hero.utility.crowd_control.getD 0
  (combatScore * 0.35 + survScore * 0.25 + powerScore * 0.30 + utilityScore * 0.10) * 20

/-- Number of maxed combat and survivability stats of the hero, feeding the
perfect-stat penalty of calculate_pick_priority_score. -/
def perfectStatCount (hero : Meta) : Nat :=
  ([hero.combat.burst_damage.getD 0, hero.combat.sustained_damage.getD 0,
    hero.combat.dps.getD 0, hero.combat.aoe_damage.getD 0,
    hero.survivability.tankiness.getD 0, hero.survivability.mobility.getD 0,
    hero.survivability.escape.getD 0].filter (fun x => decide (5 ≤ x))).length

/-- Embedding of MetaDraftEngine. calculate_pick_priority_score. -/
def calcPickPriorityScore (hero : Meta) : ℚ :=
  let priority := pickPriorityRaw hero
  let n := perfectStatCount hero
  let priority :=
    if 5 ≤ n then priority * 0.85
    else if 4 ≤ n then priority * 0.90
    else if 3 ≤ n then priority * 0.95
    else priority
  min priority 100

/-- The five factor weights of the meta engine (a record standing for the
weights dictionary). -/
structure Weights where
  counter : ℚ
  synergy : ℚ
  team_composition : ℚ
  pick_priority : ℚ
  role_fit : ℚ
deriving Repr

/-- base_weights of MetaDraftEngine. -/
def baseWeights : Weights :=
  { counter := 0.35, synergy := 0.25, team_composition := 0.20
    pick_priority := 0.15, role_fit := 0.05 }

/-- sum(weights.values()). -/
def Weights.total (w : Weights) : ℚ :=
  w.counter + w.synergy + w.team_composition + w.pick_priority + w.role_fit

/-- The five additive adjustment rules of calculate_dynamic_weights, applied
in source order, as a function of the five already-evaluated rule predicates. -/
def adjustWeights (lateDraft enemyClear missingRole manyBans winCond : Bool) : Weights :=
  let w := baseWeights
  let w := if lateDraft then
    { w with team_composition := w.team_composition + 0.10, synergy := w.synergy + 0.10,
             pick_priority := w.pick_priority - 0.10 } else w
  let w := if enemyClear then
    { w with counter := w.counter + 0.15, synergy := w.synergy - 0.10 } else w
  let w := if missingRole then
    { w with role_fit := w.role_fit + 0.15, pick_priority := w.pick_priority - 0.05 } else w
  let w := if manyBans then { w with pick_priority := w.pick_priority + 0.05 } else w
  if winCond then { w with synergy := w.synergy + 0.10, counter := w.counter - 0.05 } else w

/-- Final normalization step of calculate_dynamic_weights. -/
def normalizeWeights (w : Weights) : Weights :=
  if 0 < w.total then
    { counter := w.counter / w.total, synergy := w.synergy / w.total
      team_composition := w.team_composition / w.total
      pick_priority := w.pick_priority / w.total, role_fit := w.role_fit / w.total }
  else w

/-- All-lanes constant of identify_missing_roles. -/
def allLanes : List String := ["EXP Lane", "Jungle", "Mid Lane", "Gold Lane", "Roam"]

/-- Embedding of MetaDraftEngine. identify_missing_roles: lanes not claimed as
primary lane by any known ally. -/
def identifyMissingRoles (catalog : Catalog) (allyPicks : List String) : List String :=
  let filled := allyPicks.filterMap (fun n =>
    (alistLookup catalog n).bind (fun m => (m.roles.lane_priority.getD []).head?))
  allLanes.filter (fun l => decide (l ∉ filled))

/-- Embedding of MetaDraftEngine. has_win_condition. -/
def hasWinCondition (catalog : Catalog) (allyPicks : List String) : Bool :=
  allyPicks.any (fun n =>
    match alistLookup catalog n with
    | some m => decide (4 ≤ m.combat.dps.getD 0
        ∧ (4 ≤ m.power_curve.late_game.getD 0 ∨ 4 ≤ m.power_curve.scaling.getD 0))
    | none => false)

/-- Rule 3 predicate of calculate_dynamic_weights: current_role is truthy and
its mapped lane name is among the missing roles (a role code outside the role
map yields None, which is never a member of the missing-role list). -/
def missingRoleCond (catalog : Catalog) (allyPicks : List String) (currentRole : String) : Bool :=
  currentRole != "" &&
    (match roleMapOpt currentRole with
     | some l => (identifyMissingRoles catalog allyPicks).contains l
     | none => false)

/-- Embedding of MetaDraftEngine. calculate_dynamic_weights. -/
def calcDynamicWeights (catalog : Catalog) (banned enemy ally : List String)
    (currentRole : String) : Weights :=
  normalizeWeights (adjustWeights
    (decide (4 ≤ enemy.length + ally.length))
    (decide (3 ≤ enemy.length))
    (missingRoleCond catalog ally currentRole)
    (decide (6 ≤ banned.length))
    (hasWinCondition catalog ally))

/-- Structured model of the reason strings emitted by the meta engine in
calculate_hero_score (the numeric formatting of the Python f-strings is kept
as a rational payload). -/
inductive MetaReason where
  | strongCounter (score : ℚ)
  | excellentSynergy (score : ℚ)
  | fillsGap
  | highMeta
  | primaryLane (lane : String)
  | viableLane (lane : String)
  | situationalLane (lane : String)
  | notSuited (lane : String)
  | topTier (score : ℚ)
deriving Repr, DecidableEq

/-- Embedding of MetaDraftEngine. calculate_hero_score: the dynamically
weighted sum of the five factor scores, plus the threshold-gated reasons,
truncated to five. -/
def calcHeroScore (catalog : Catalog) (hero : Meta) (enemy ally : List String)
    (currentRole : String) (banned : List String) : ℚ × List MetaReason :=
  let weights := calcDynamicWeights catalog banned enemy ally currentRole
  let counterScore := calcCounterScore catalog hero enemy
  let synergyScore := calcSynergyScore catalog hero ally
  let compScore := calcCompScore catalog hero ally
  let priorityScore := calcPickPriorityScore hero
  let laneScore := calcRoleFitScore hero currentRole
  let laneName := roleMapD currentRole
  let reasons :=
    (if 70 < counterScore then [MetaReason.strongCounter counterScore] else [])
    ++ (if 70 < synergyScore then [MetaReason.excellentSynergy synergyScore] else [])
    ++ (if 70 < compScore then [MetaReason.fillsGap] else [])
    ++ (if 75 < priorityScore then [MetaReason.highMeta] else [])
    ++ (if 100 ≤ laneScore then [MetaReason.primaryLane laneName]
        else if 75 ≤ laneScore then [MetaReason.viableLane laneName]
        else if 50 ≤ laneScore then [MetaReason.situationalLane laneName]
        else if laneScore < 30 then [MetaReason.notSuited laneName]
        else [])
  let finalScore := counterScore * weights.counter + synergyScore * weights.synergy
    + compScore * weights.team_composition + priorityScore * weights.pick_priority
    + laneScore * weights.role_fit
  let reasons := if 80 < finalScore then MetaReason.topTier finalScore :: reasons else reasons
  (finalScore, reasons.take 5)

/-- One entry of the suggestion list built by get_pick_suggestions. -/
structure Suggestion where
  hero : String
  score : ℚ
  reasons : List MetaReason
  role : String
deriving Repr

/-- Model of round(x, 2).  Python rounds a float to two decimal places; on
rationals this is rounding of 100 x to the nearest integer (the half-to-even
tie rule of binary floats has no exact counterpart on rationals and ties are
immaterial to the properties proved here). -/
def round2 (q : ℚ) : ℚ := (round (q * 100) : ℤ) / 100

/-- Stable insertion of a suggestion into a list sorted by descending score:
the new element goes before the first strictly lower score, which reproduces
the stable descending sort of list.sort(key=score, reverse=True). -/
def insertDesc (s : Suggestion) : List Suggestion → List Suggestion
  | [] => [s]
  | t :: ts => if t.score ≤ s.score then s :: t :: ts else t :: insertDesc s ts

/-- Stable descending-by-score sort of the scored hero list. -/
def sortDesc : List Suggestion → List Suggestion
  | [] => []
  | s :: ss => insertDesc s (sortDesc ss)

/-- The suggestion-count update loop at the end of get_pick_suggestions:
each suggested hero gets its counter incremented by one. -/
def bumpCounts : List Suggestion → (String → Nat) → (String → Nat)
  | [], c => c
  | s :: rest, c => bumpCounts rest (fun h => if h = s.hero then c h + 1 else c h)

/-- Candidate pool of get_pick_suggestions: catalog heroes, in catalog order,
that appear in none of the banned, enemy and ally lists (the set union of the
source). -/
def candidateNames (catalog : Catalog) (banned enemy ally : List String) : List String :=
  (catalog.map Prod.fst).filter (fun n => decide (n ∉ banned ++ enemy ++ ally))

/-- Scoring of one candidate inside get_pick_suggestions: weighted score,
diversity penalty, rounding, and the suggestion record fields. -/
def scoreCandidate (catalog : Catalog) (count : String → Nat)
    (banned enemy ally : List String) (currentRole : String) (name : String) : Suggestion :=
  let hero := (alistLookup catalog name).getD default
  let sr := calcHeroScore catalog hero enemy ally currentRole banned
  { hero := name
    score := round2 (sr.1 * (1 - diversityPenalty (count name)))
    reasons := sr.2
    role := hero.roles.primary_role.getD "Unknown" }

/-- Embedding of MetaDraftEngine.get_pick_suggestions as a state transformer
on the shared suggestion_count table (read with default 0, exactly as the
Python dict is read).  Returns the top-five suggestion list and the updated
count table. -/
def getPickSuggestions (catalog : Catalog) (count : String → Nat)
    (banned enemy ally : List String) (currentRole : String) :
    List Suggestion × (String → Nat) :=
  if candidateNames catalog banned enemy ally = [] then ([], count)
  else
    let top5 := (sortDesc ((candidateNames catalog banned enemy ally).map
      (scoreCandidate catalog count banned enemy ally currentRole))).take 5
    (top5, bumpCounts top5 count)

/-! ### Legacy engine: SynergySystem tables and DraftEngine scoring -/

/-- The hardcoded hero-to-hero synergy table of SynergySystem (synergy.py). -/
def synergyData : List (String × List (String × ℚ)) :=
  [("Lolita", [("Yin", 85), ("Paquito", 80), ("Hanabi", 75), ("Chang\x27e", 82),
    ("Floryn", 88), ("Cecilion", 79), ("Granger", 77)]),
   ("Khufra", [("Yin", 90), ("Franco", 85), ("Gusion", 87), ("Fanny", 89),
    ("Hanabi", 82), ("Pharsa", 84), ("Valentina", 86)]),
   ("Franco", [("Khufra", 85), ("Yin", 88), ("Paquito", 83), ("Clint", 80),
    ("Chang\x27e", 85), ("Pharsa", 87), ("Moskov", 81)]),
   ("Johnson", [("Odette", 95), ("Aurora", 92), ("Vale", 88), ("Cecilion", 87),
    ("Chang\x27e", 90), ("Pharsa", 89), ("Zhask", 85)]),
   ("Yin", [("Lolita", 85), ("Khufra", 90), ("Franco", 88), ("Floryn", 82),
    ("Estes", 80), ("Mathilda", 84), ("Rafaela", 79)]),
   ("Paquito", [("Lolita", 80), ("Franco", 83), ("Floryn", 85), ("Estes", 87),
    ("Mathilda", 82), ("Angela", 84), ("Diggie", 81)]),
   ("Yu Zhong", [("Angela", 88), ("Estes", 85), ("Floryn", 87), ("Mathilda", 83),
    ("Rafaela", 80), ("Diggie", 82), ("Faramis", 79)]),
   ("Gusion", [("Khufra", 87), ("Johnson", 85), ("Diggie", 88), ("Mathilda", 90),
    ("Angela", 86), ("Kaja", 89), ("Franco", 84)]),
   ("Fanny", [("Khufra", 89), ("Angela", 92), ("Diggie", 87), ("Mathilda", 88),
    ("Kaja", 86), ("Johnson", 85), ("Franco", 83)]),
   ("Ling", [("Angela", 90), ("Mathilda", 88), ("Diggie", 85), ("Kaja", 87),
    ("Johnson", 84), ("Khufra", 86), ("Franco", 82)]),
   ("Chang\x27e", [("Lolita", 82), ("Franco", 85), ("Johnson", 90), ("Atlas", 87),
    ("Tigreal", 84), ("Hylos", 83), ("Grock", 81)]),
   ("Pharsa", [("Khufra", 84), ("Franco", 87), ("Johnson", 89), ("Atlas", 86),
    ("Tigreal", 85), ("Grock", 83), ("Hylos", 82)]),
   ("Valentina", [("Khufra", 86), ("Johnson", 88), ("Atlas", 90), ("Franco", 84),
    ("Tigreal", 87), ("Grock", 85), ("Hylos", 86)]),
   ("Cecilion", [("Lolita", 79), ("Johnson", 87), ("Atlas", 85), ("Franco", 82),
    ("Tigreal", 84), ("Grock", 83), ("Hylos", 81)]),
   ("Hanabi", [("Lolita", 75), ("Khufra", 82), ("Franco", 78), ("Johnson", 80),
    ("Atlas", 84), ("Tigreal", 81), ("Grock", 79)]),
   ("Granger", [("Lolita", 77), ("Khufra", 83), ("Franco", 80), ("Johnson", 82),
    ("Atlas", 85), ("Tigreal", 83), ("Grock", 81)]),
   ("Clint", [("Franco", 80), ("Johnson", 84), ("Atlas", 87), ("Tigreal", 85),
    ("Grock", 83), ("Khufra", 82), ("Lolita", 79)]),
   ("Moskov", [("Franco", 81), ("Johnson", 83), ("Atlas", 86), ("Tigreal", 84),
    ("Grock", 82), ("Khufra", 85), ("Lolita", 80)]),
   ("Floryn", [("Lolita", 88), ("Yin", 82), ("Paquito", 85), ("Yu Zhong", 87),
    ("Aulus", 83), ("Lapu-Lapu", 84), ("Silvanna", 86)]),
   ("Estes", [("Yin", 80), ("Paquito", 87), ("Yu Zhong", 85), ("Aulus", 88),
    ("Lapu-Lapu", 86), ("Silvanna", 84), ("Martis", 83)]),
   ("Mathilda", [("Yin", 84), ("Gusion", 90), ("Fanny", 88), ("Ling", 88),
    ("Lancelot", 87), ("Hayabusa", 85), ("Harley", 86)]),
   ("Angela", [("Paquito", 84), ("Yu Zhong", 88), ("Fanny", 92), ("Ling", 90),
    ("Gusion", 86), ("Lancelot", 89), ("Hayabusa", 87)])]

/-- The hardcoded directed counter table of SynergySystem (synergy.py). -/
def counterData : List (String × List (String × ℚ)) :=
  [("Khufra", [("Fanny", 95), ("Gusion", 88), ("Ling", 90), ("Lancelot", 85),
    ("Hayabusa", 82), ("Harley", 80), ("Kagura", 83)]),
   ("Franco", [("Chang\x27e", 88), ("Pharsa", 90), ("Cecilion", 85), ("Zhask", 87),
    ("Valentina", 82), ("Lylia", 84), ("Lunox", 83)]),
   ("Johnson", [("Hanabi", 87), ("Granger", 85), ("Clint", 88), ("Moskov", 86),
    ("Wanwan", 90), ("Brody", 84), ("Beatrix", 83)]),
   ("Yin", [("Valentina", 92), ("Chang\x27e", 88), ("Pharsa", 85), ("Cecilion", 87),
    ("Zhask", 84), ("Lylia", 86), ("Lunox", 83)]),
   ("Paquito", [("Hanabi", 89), ("Granger", 87), ("Clint", 85), ("Moskov", 88),
    ("Wanwan", 86), ("Brody", 90), ("Beatrix", 84)]),
   ("Yu Zhong", [("Lancelot", 88), ("Gusion", 85), ("Fanny", 82), ("Ling", 84),
    ("Hayabusa", 87), ("Harley", 89), ("Kagura", 86)]),
   ("Gusion", [("Chang\x27e", 90), ("Pharsa", 88), ("Cecilion", 92), ("Zhask", 87),
    ("Valentina", 85), ("Lylia", 89), ("Lunox", 86)]),
   ("Fanny", [("Hanabi", 85), ("Granger", 88), ("Clint", 90), ("Moskov", 87),
    ("Wanwan", 84), ("Brody", 89), ("Beatrix", 86)]),
   ("Ling", [("Cecilion", 88), ("Chang\x27e", 86), ("Pharsa", 90), ("Zhask", 85),
    ("Valentina", 87), ("Lylia", 84), ("Lunox", 89)]),
   ("Valentina", [("Estes", 95), ("Angela", 90), ("Floryn", 88), ("Mathilda", 85),
    ("Rafaela", 87), ("Diggie", 82), ("Kaja", 84)]),
   ("Chang\x27e", [("Lolita", 85), ("Franco", 82), ("Johnson", 80), ("Atlas", 88),
    ("Tigreal", 86), ("Grock", 84), ("Hylos", 83)]),
   ("Esmeralda", [("Chang\x27e", 92), ("Pharsa", 90), ("Cecilion", 88), ("Valentina", 85),
    ("Zhask", 87), ("Lylia", 89), ("Lunox", 86)]),
   ("Diggie", [("Khufra", 88), ("Franco", 85), ("Atlas", 90), ("Tigreal", 87),
    ("Johnson", 84), ("Grock", 86), ("Hylos", 83)]),
   ("Mathilda", [("Yu Zhong", 85), ("Paquito", 82), ("Aulus", 88), ("Lapu-Lapu", 86),
    ("Silvanna", 84), ("Martis", 87), ("Jawhead", 83)])]

/-- The fixed role-to-role synergy modifier table of SynergySystem. -/
def roleSynergies : List (String × List (String × ℚ)) :=
  [("Tank", [("Fighter", 80), ("Assassin", 75), ("Mage", 85), ("Marksman", 90), ("Support", 70)]),
   ("Fighter", [("Tank", 80), ("Assassin", 70), ("Mage", 75), ("Marksman", 65), ("Support", 85)]),
   ("Assassin", [("Tank", 75), ("Fighter", 70), ("Mage", 60), ("Marksman", 65), ("Support", 90)]),
   ("Mage", [("Tank", 85), ("Fighter", 75), ("Assassin", 60), ("Marksman", 70), ("Support", 80)]),
   ("Marksman", [("Tank", 90), ("Fighter", 65), ("Assassin", 65), ("Mage", 70), ("Support", 85)]),
   ("Support", [("Tank", 70), ("Fighter", 85), ("Assassin", 90), ("Mage", 80), ("Marksman", 85)])]

/-- Two-level table read: tbl[a][b] when both keys are present. -/
def tableLookup (tbl : List (String × List (String × ℚ))) (a b : String) : Option ℚ :=
  match alistLookup tbl a with
  | some row => alistLookup row b
  | none => none

/-- SynergySystem.get_synergy_score: the tabulated value in either direction,
defaulting to 60. -/
def getSynergyScore (hero1 hero2 : String) : ℚ :=
  match tableLookup synergyData hero1 hero2 with
  | some v => v
  | none =>
    match tableLookup synergyData hero2 hero1 with
    | some v => v
    | none => 60

/-- SynergySystem.get_counter_score: tabulated directed value, defaulting
to 50. -/
def getCounterScore (counteringHero targetHero : String) : ℚ :=
  match tableLookup counterData counteringHero targetHero with
  | some v => v
  | none => 50

/-- Ordered pairs (i, j) with i before j, in the iteration order of the
double loop of get_team_synergy. -/
def allPairs {α : Type} : List α → List (α × α)
  | [] => []
  | x :: xs => xs.map (fun y => (x, y)) ++ allPairs xs

/-- SynergySystem.get_team_synergy: average pairwise synergy, each pair scaled
by the role modifier when both roles are tabulated; 100 for fewer than two
heroes. -/
def getTeamSynergy (heroes : List String) (roles : String → String) : ℚ :=
  if heroes.length < 2 then 100
  else
    let pairScores := (allPairs heroes).map (fun p =>
      let score := getSynergyScore p.1 p.2
      match tableLookup roleSynergies (roles p.1) (roles p.2) with
      | some m => score * (m / 100)
      | none => score)
    if 0 < pairScores.length then pairScores.sum / pairScores.length else 60

/-- Player preference record, as read from the PlayerPreference table. -/
structure PrefRecord where
  weight : ℚ
  play_count : Nat
  win_rate : ℚ
deriving Repr

/-- External data consumed by the legacy DraftEngine: its heroes_data mapping
(role lookup and membership) and the database-backed match history and player
preference tables.  The role of a hero, when the hero is present, is modelled as a
non-null string, the form produced by the hero importer. -/
structure LegacyDB where
  roleOf : String → Option String
  known : String → Bool
  matchPerf : String → List ℚ
  pref : String → String → Option PrefRecord

/-- A draft request for the legacy engine (the fields used in scoring). -/
structure DraftRequest where
  ally_picks : List String
  enemy_picks : List String
  ally_bans : List String := []
  enemy_bans : List String := []
  player_id : Option String := none
  role_preference : Option String := none

/-- Structured model of the legacy engine reason strings. -/
inductive Reason where
  | excellentSynergy (ally : String) (score : ℚ)
  | goodSynergy (ally : String) (score : ℚ)
  | strongTeamComp (score : ℚ)
  | hardCounters (enemy : String) (score : ℚ)
  | counters (enemy : String) (score : ℚ)
  | counteredBy (enemy : String) (score : ℚ)
  | criticallyNeeded (role : String)
  | fillsNeeded (role : String)
  | tooMany (role : String)
  | duplicateRole (role : String)
  | strongMeta (score : ℚ)
  | goodMeta (score : ℚ)
  | weakMeta (score : ℚ)
  | limitedMatchData
  | highWinRate (rate : ℚ)
  | lowWinRate (rate : ℚ)
  | experienced (hero : String) (games : Nat)
  | noExperience (hero : String)
deriving Repr, DecidableEq

/-- Per-ally reason emitted in the loop of the legacy
calculate_synergy_score. -/
def synergyReasonFor (hero ally : String) : Option Reason :=
  let s := getSynergyScore hero ally
  if 85 ≤ s then some (Reason.excellentSynergy ally s)
  else if 75 ≤ s then some (Reason.goodSynergy ally s)
  else none

/-- The synergy reasons collected for a candidate, in ally order. -/
def synergyReasons (hero : String) (allies : List String) : List Reason :=
  allies.filterMap (synergyReasonFor hero)

/-- Per-enemy reason emitted in the loop of the legacy
calculate_counter_score. -/
def counterReasonFor (hero enemy : String) : Option Reason :=
  let c := getCounterScore hero enemy
  if 85 ≤ c then some (Reason.hardCounters enemy c)
  else if 70 ≤ c then some (Reason.counters enemy c)
  else if c ≤ 30 then some (Reason.counteredBy enemy c)
  else none

/-- Roles dictionary built in the legacy calculate_synergy_score: ally roles
from heroes_data with default Fighter, then the candidate added last. -/
def legacyRolesFn (db : LegacyDB) (hero : String) (allies : List String) : String → String :=
  fun h =>
    if h = hero then (db.roleOf hero).getD "Fighter"
    else if h ∈ allies then (db.roleOf h).getD "Fighter"
    else "Fighter"

/-- Embedding of DraftEngine. calculate_synergy_score (legacy engine):
average registry synergy with each ally blended with team synergy 70/30, plus
threshold-gated reasons. -/
def legacySynergyScore (db : LegacyDB) (hero : String) (allies : List String) :
    ℚ × List Reason :=
  if allies = [] then (60, [])
  else
    let avg := ((allies.map (getSynergyScore hero)).sum) / allies.length
    let team := getTeamSynergy (allies ++ [hero]) (legacyRolesFn db hero allies)
    let reasons := synergyReasons hero allies
    let reasons := if 80 ≤ team then reasons ++ [Reason.strongTeamComp team] else reasons
    (avg * 0.7 + team * 0.3, reasons)

/-- Embedding of DraftEngine. calculate_counter_score (legacy engine). -/
def legacyCounterScore (hero : String) (enemies : List String) : ℚ × List Reason :=
  if enemies = [] then (60, [])
  else
    (((enemies.map (getCounterScore hero)).sum) / enemies.length,
     enemies.filterMap (counterReasonFor hero))

/-- Number of allies whose heroes_data role (default Fighter) equals r. -/
def countRole (db : LegacyDB) (allies : List String) (r : String) : Nat :=
  (allies.filter (fun a => (db.roleOf a).getD "Fighter" == r)).length

/-- Membership and priority of the hero role in the needed-roles dictionary
built by DraftEngine. get_needed_roles. -/
def needPriority (db : LegacyDB) (allies : List String) (heroRole : String) : Option Nat :=
  if heroRole = "Tank" ∧ countRole db allies "Tank" = 0 then some 3
  else if heroRole = "Support" ∧ 3 ≤ allies.length ∧ countRole db allies "Support" = 0 then some 2
  else if heroRole = "Marksman" ∧ countRole db allies "Marksman" = 0 then some 2
  else if (heroRole = "Mage" ∨ heroRole = "Assassin")
      ∧ countRole db allies "Mage" + countRole db allies "Assassin" = 0 then some 2
  else none

/-- Embedding of DraftEngine. calculate_role_balance_score. -/
def legacyRoleBalance (db : LegacyDB) (hero : String) (allies : List String) :
    ℚ × List Reason :=
  let heroRole := (db.roleOf hero).getD "Fighter"
  match needPriority db allies heroRole with
  | some priority =>
    (70 + (priority : ℚ) * 10,
     if 3 ≤ priority then [Reason.criticallyNeeded heroRole]
     else [Reason.fillsNeeded heroRole])
  | none =>
    let current := countRole db allies heroRole
    if 2 ≤ current then (30, [Reason.tooMany heroRole])
    else if current = 1 then (50, [Reason.duplicateRole heroRole])
    else (60, [])

/-- Embedding of DraftEngine. calculate_meta_score; the match performance
list stands for the most recent (at most 50) performance scores returned by
the match-history query. -/
def legacyMetaScore (db : LegacyDB) (hero : String) : ℚ × List Reason :=
  if db.known hero = false then (50, [])
  else
    match db.matchPerf hero with
    | [] => (60, [Reason.limitedMatchData])
    | ms =>
      let avg := ms.sum / ms.length
      let reasons :=
        if 80 ≤ avg then [Reason.strongMeta avg]
        else if 70 ≤ avg then [Reason.goodMeta avg]
        else if avg ≤ 50 then [Reason.weakMeta avg]
        else []
      (min (max avg 0) 100, reasons)

/-- Embedding of DraftEngine. calculate_player_preference_score. -/
def legacyPrefScore (db : LegacyDB) (hero : String) (playerId : Option String) :
    ℚ × List Reason :=
  match playerId with
  | none => (60, [])
  | some pid =>
    if db.known hero = false then (50, [])
    else
      match db.pref pid hero with
      | none => (60, [])
      | some p =>
        let score : ℚ := 60 + (p.weight - 1) * 30
        let sr :=
          if 5 ≤ p.play_count then
            if 70 ≤ p.win_rate then (score + 15, [Reason.highWinRate p.win_rate])
            else if p.win_rate ≤ 40 then (score - 15, [Reason.lowWinRate p.win_rate])
            else (score, ([] : List Reason))
          else (score, [])
        let sr :=
          if 20 ≤ p.play_count then (sr.1 + 10, sr.2 ++ [Reason.experienced hero p.play_count])
          else if p.play_count = 0 then (sr.1 - 5, sr.2 ++ [Reason.noExperience hero])
          else sr
        (min (max sr.1 0) 100, sr.2)

/-- Versatile-hero bonus list of DraftEngine. apply_modifiers. -/
def versatileHeroes : List String := ["Valentina", "Paquito", "Yu Zhong", "Jawhead", "Chou"]

/-- S-tier bonus list of DraftEngine. apply_modifiers. -/
def sTierHeroes : List String := ["Yin", "Valentina", "Khufra", "Estes", "Fanny"]

/-- Embedding of DraftEngine. apply_modifiers. -/
def applyModifiers (db : LegacyDB) (score : ℚ) (hero : String) (allies : List String) : ℚ :=
  let heroRole := (db.roleOf hero).getD "Fighter"
  let score :=
    if heroRole = "Assassin" ∧ allies.any (fun a => db.roleOf a == some "Assassin") then
      score - 10
    else score
  let score := if hero ∈ versatileHeroes then score + 5 else score
  if hero ∈ sTierHeroes then score + 8 else score

/-- Embedding of DraftEngine. calculate_hero_score (legacy engine): the five
factor scores combined with the fixed legacy weights, then the modifiers and
the cap at 100; reasons are collected in factor order and truncated to
five. -/
def legacyHeroScore (db : LegacyDB) (hero : String) (req : DraftRequest) :
    ℚ × List Reason :=
  let syn := legacySynergyScore db hero req.ally_picks
  let cnt := legacyCounterScore hero req.enemy_picks
  let rb := legacyRoleBalance db hero req.ally_picks
  let ms := legacyMetaScore db hero
  let pf := legacyPrefScore db hero req.player_id
  let finalScore := syn.1 * 0.25 + cnt.1 * 0.30 + rb.1 * 0.20 + ms.1 * 0.15 + pf.1 * 0.10
  let finalScore := applyModifiers db finalScore hero req.ally_picks
  (min finalScore 100, (syn.2 ++ cnt.2 ++ rb.2 ++ ms.2 ++ pf.2).take 5)

/-! ### Bound lemmas for the meta engine scoring functions -/

lemma ite_zero_nonneg (c : Prop) [Decidable c] (a : ℚ) (ha : 0 ≤ a) :
    0 ≤ if c then a else 0 := by
  split
  · exact ha
  · exact le_refl 0

lemma antiSquishyPts_nonneg (hero enemy : Meta) : 0 ≤ antiSquishyPts hero enemy := by
  simp only [antiSquishyPts]
  split_ifs with h1 h2
  · linarith [h1.2]
  · linarith [h2.2]
  · exact le_refl 0

lemma antiTankPts_nonneg (hero enemy : Meta) : 0 ≤ antiTankPts hero enemy := by
  simp only [antiTankPts]
  split_ifs with h1 h2
  · linarith [h1.2]
  · linarith [h2.2]
  · exact le_refl 0

lemma mobilityPts_nonneg (hero enemy : Meta) : 0 ≤ mobilityPts hero enemy := by
  simp only [mobilityPts]
  split_ifs <;> norm_num

lemma pokePts_nonneg (hero enemy : Meta) : 0 ≤ pokePts hero enemy := by
  simp only [pokePts]
  split_ifs with h1 h2
  · linarith [h1.2]
  · linarith [h2.2]
  · exact le_refl 0

lemma engagePts_nonneg (hero enemy : Meta) : 0 ≤ engagePts hero enemy := by
  simp only [engagePts]
  split_ifs with h1
  · linarith [h1.2]
  · exact le_refl 0

lemma burstPts_nonneg (hero enemy : Meta) : 0 ≤ burstPts hero enemy := by
  simp only [burstPts]
  split_ifs with h1 h2
  · linarith [h1.2]
  · linarith [h2.2]
  · exact le_refl 0

lemma counterPoints_nonneg (hero enemy : Meta) : 0 ≤ counterPoints hero enemy := by
  unfold counterPoints
  have := antiSquishyPts_nonneg hero enemy
  have := antiTankPts_nonneg hero enemy
  have := mobilityPts_nonneg hero enemy
  have := pokePts_nonneg hero enemy
  have := engagePts_nonneg hero enemy
  have := burstPts_nonneg hero enemy
  linarith

lemma synergyPoints_nonneg (hero ally : Meta) : 0 ≤ synergyPoints hero ally := by
  unfold synergyPoints
  refine add_nonneg (add_nonneg (add_nonneg (add_nonneg (add_nonneg (add_nonneg ?_ ?_) ?_)
    ?_) ?_) ?_) ?_ <;> exact ite_zero_nonneg _ _ (by norm_num)

lemma meanOr60_bounds (l : List ℚ) (h : ∀ x ∈ l, 0 ≤ x ∧ x ≤ 100) :
    0 ≤ meanOr60 l ∧ meanOr60 l ≤ 100 := by
  unfold meanOr60
  split_ifs with hl
  · have hlen : (0 : ℚ) < l.length := by exact_mod_cast hl
    constructor
    · exact div_nonneg (List.sum_nonneg fun x hx => (h x hx).1) hlen.le
    · rw [div_le_iff₀ hlen]
      calc l.sum ≤ l.length • (100 : ℚ) :=
            List.sum_le_card_nsmul l 100 fun x hx => (h x hx).2
        _ = 100 * l.length := by rw [nsmul_eq_mul]; ring
  · norm_num

lemma capped_points_mem_bounds (f : Meta → ℚ) (hf : ∀ e, 0 ≤ f e)
    (l : List Meta) : ∀ x ∈ l.map (fun e => min (f e) 100), 0 ≤ x ∧ x ≤ 100 := by
  intro x hx
  obtain ⟨e, _, rfl⟩ := List.mem_map.mp hx
  exact ⟨le_min (hf e) (by norm_num), min_le_right _ _⟩

lemma calcCounterScore_bounds (catalog : Catalog) (hero : Meta) (enemy : List String) :
    0 ≤ calcCounterScore catalog hero enemy ∧ calcCounterScore catalog hero enemy ≤ 100 := by
  unfold calcCounterScore
  split_ifs
  · norm_num
  · exact meanOr60_bounds _
      (capped_points_mem_bounds _ (counterPoints_nonneg hero) _)

lemma calcSynergyScore_bounds (catalog : Catalog) (hero : Meta) (ally : List String) :
    0 ≤ calcSynergyScore catalog hero ally ∧ calcSynergyScore catalog hero ally ≤ 100 := by
  unfold calcSynergyScore
  split_ifs
  · norm_num
  · exact meanOr60_bounds _
      (capped_points_mem_bounds _ (synergyPoints_nonneg hero) _)

lemma compScoreOf_bounds (m f : ℚ) : 0 ≤ compScoreOf m f ∧ compScoreOf m f ≤ 100 := by
  unfold compScoreOf clamp0100
  split_ifs
  · norm_num
  · exact ⟨le_max_right _ _, max_le (min_le_right _ _) (by norm_num)⟩

lemma calcCompScore_bounds (catalog : Catalog) (hero : Meta) (ally : List String) :
    0 ≤ calcCompScore catalog hero ally ∧ calcCompScore catalog hero ally ≤ 100 :=
  compScoreOf_bounds _ _

/-- The catalog invariant on one hero record: every rating read by the
pick-priority blend is non-negative (ratings are 0 to 5 in the data model;
only the lower bound is needed anywhere). -/
def Meta.NonnegStats (m : Meta) : Prop :=
  0 ≤ m.combat.burst_damage.getD 0 ∧ 0 ≤ m.combat.sustained_damage.getD 0
  ∧ 0 ≤ m.combat.dps.getD 0 ∧ 0 ≤ m.combat.aoe_damage.getD 0
  ∧ 0 ≤ m.survivability.tankiness.getD 0 ∧ 0 ≤ m.survivability.mobility.getD 0
  ∧ 0 ≤ m.survivability.escape.getD 0
  ∧ 0 ≤ m.power_curve.early_game.getD 0 ∧ 0 ≤ m.power_curve.mid_game.getD 0
  ∧ 0 ≤ m.power_curve.late_game.getD 0 ∧ 0 ≤ m.power_curve.scaling.getD 0
  ∧ 0 ≤ m.utility.crowd_control.getD 0

lemma pickPriorityRaw_nonneg (hero : Meta) (h : hero.NonnegStats) :
    0 ≤ pickPriorityRaw hero := by
  obtain ⟨h1, h2, h3, h4, h5, h6, h7, h8, h9, h10, h11, h12⟩ := h
  unfold pickPriorityRaw
  dsimp only
  nlinarith

lemma calcPickPriorityScore_bounds (hero : Meta) (h : hero.NonnegStats) :
    0 ≤ calcPickPriorityScore hero ∧ calcPickPriorityScore hero ≤ 100 := by
  have hraw := pickPriorityRaw_nonneg hero h
  unfold calcPickPriorityScore
  dsimp only
  refine ⟨le_min ?_ (by norm_num), min_le_right _ _⟩
  split_ifs <;> nlinarith

lemma laneFitAux_bounds (l : List String) (t : String) (k : Nat) :
    0 ≤ laneFitAux l t k ∧ laneFitAux l t k ≤ 100 := by
  induction l generalizing k with
  | nil => simp only [laneFitAux]; norm_num
  | cons x xs ih =>
    simp only [laneFitAux]
    split_ifs <;> first | exact ih (k + 1) | norm_num

lemma calcRoleFitScore_bounds (hero : Meta) (role : String) :
    0 ≤ calcRoleFitScore hero role ∧ calcRoleFitScore hero role ≤ 100 :=
  laneFitAux_bounds _ _ _

/-! ### Claims C1, C2, C4, C5, C6, C7 -/

/-- C1: for every catalog hero (its ratings being non-negative, per the data
model invariant) and every draft state — any enemy picks, ally picks and
target lane — each of the five meta-engine scoring functions (counter,
synergy, team composition, pick priority, lane fit) returns a value between
0 and 100. -/
theorem meta_scores_bounded (catalog : Catalog) (hero : Meta)
    (enemy ally : List String) (role : String) (h : hero.NonnegStats) :
    (0 ≤ calcCounterScore catalog hero enemy ∧ calcCounterScore catalog hero enemy ≤ 100)
    ∧ (0 ≤ calcSynergyScore catalog hero ally ∧ calcSynergyScore catalog hero ally ≤ 100)
    ∧ (0 ≤ calcCompScore catalog hero ally ∧ calcCompScore catalog hero ally ≤ 100)
    ∧ (0 ≤ calcPickPriorityScore hero ∧ calcPickPriorityScore hero ≤ 100)
    ∧ (0 ≤ calcRoleFitScore hero role ∧ calcRoleFitScore hero role ≤ 100) :=
  ⟨calcCounterScore_bounds catalog hero enemy,
   calcSynergyScore_bounds catalog hero ally,
   calcCompScore_bounds catalog hero ally,
   calcPickPriorityScore_bounds hero h,
   calcRoleFitScore_bounds hero role⟩

/-- Witness for C1 at a concrete hero with an empty attribute bundle. -/
theorem meta_scores_bounded_witness :
    (default : Meta).NonnegStats ∧ 0 ≤ calcCounterScore [] default ["Layla"] := by
  have h : (default : Meta).NonnegStats := by unfold Meta.NonnegStats; decide
  exact ⟨h, (meta_scores_bounded [] default ["Layla"] [] "mid" h).1.1⟩

lemma weights_cases_ok (b1 b2 b3 b4 b5 : Bool) :
    (0 ≤ (normalizeWeights (adjustWeights b1 b2 b3 b4 b5)).counter
      ∧ 0 ≤ (normalizeWeights (adjustWeights b1 b2 b3 b4 b5)).synergy
      ∧ 0 ≤ (normalizeWeights (adjustWeights b1 b2 b3 b4 b5)).team_composition
      ∧ 0 ≤ (normalizeWeights (adjustWeights b1 b2 b3 b4 b5)).pick_priority
      ∧ 0 ≤ (normalizeWeights (adjustWeights b1 b2 b3 b4 b5)).role_fit)
    ∧ (normalizeWeights (adjustWeights b1 b2 b3 b4 b5)).total = 1 := by
  cases b1 <;> cases b2 <;> cases b3 <;> cases b4 <;> cases b5 <;>
    norm_num [adjustWeights, baseWeights, normalizeWeights, Weights.total]

/-- C2: for every banned list, enemy picks, ally picks and target role, the
dynamic weight map of the meta engine has all five weights non-negative and
they sum exactly to 1 (computed on rationals, so the floating tolerance of
the claim is met exactly). -/
theorem dynamic_weights_normalized (catalog : Catalog) (banned enemy ally : List String)
    (role : String) :
    (0 ≤ (calcDynamicWeights catalog banned enemy ally role).counter
      ∧ 0 ≤ (calcDynamicWeights catalog banned enemy ally role).synergy
      ∧ 0 ≤ (calcDynamicWeights catalog banned enemy ally role).team_composition
      ∧ 0 ≤ (calcDynamicWeights catalog banned enemy ally role).pick_priority
      ∧ 0 ≤ (calcDynamicWeights catalog banned enemy ally role).role_fit)
    ∧ (calcDynamicWeights catalog banned enemy ally role).total = 1 :=
  weights_cases_ok _ _ _ _ _

/-- C4: the diversity penalty factor as a function of prior top-five
appearances is 0 at zero appearances, five percent at one or two, ten percent
at three or four, fifteen percent at five or more; it is monotone
non-decreasing; and applying it as score times (1 - penalty) never increases
a non-negative score. -/
theorem diversity_penalty_profile :
    diversityPenalty 0 = 0
    ∧ (∀ c : Nat, 1 ≤ c → c ≤ 2 → diversityPenalty c = 5 / 100)
    ∧ (∀ c : Nat, 3 ≤ c → c ≤ 4 → diversityPenalty c = 10 / 100)
    ∧ (∀ c : Nat, 5 ≤ c → diversityPenalty c = 15 / 100)
    ∧ (∀ c d : Nat, c ≤ d → diversityPenalty c ≤ diversityPenalty d)
    ∧ (∀ (s : ℚ) (c : Nat), 0 ≤ s → s * (1 - diversityPenalty c) ≤ s) := by
  refine ⟨rfl, ?_, ?_, ?_, ?_, ?_⟩
  · intro c h1 h2
    unfold diversityPenalty
    rw [if_neg (by omega), if_pos h2]
  · intro c h1 h2
    unfold diversityPenalty
    rw [if_neg (by omega), if_neg (by omega), if_pos h2]
  · intro c h
    unfold diversityPenalty
    rw [if_neg (by omega), if_neg (by omega), if_neg (by omega)]
  · intro c d h
    unfold diversityPenalty
    split_ifs <;> first | (exfalso; omega) | norm_num
  · intro s c hs
    have h0 : 0 ≤ diversityPenalty c := by
      unfold diversityPenalty; split_ifs <;> norm_num
    have h1 : diversityPenalty c ≤ 1 := by
      unfold diversityPenalty; split_ifs <;> norm_num
    nlinarith

/-- Witness for C4 at concrete appearance counts and a concrete score. -/
theorem diversity_penalty_profile_witness :
    diversityPenalty 4 = 10 / 100
    ∧ diversityPenalty 1 ≤ diversityPenalty 5
    ∧ (50 : ℚ) * (1 - diversityPenalty 6) ≤ 50 :=
  ⟨diversity_penalty_profile.2.2.1 4 (by norm_num) (by norm_num),
   diversity_penalty_profile.2.2.2.2.1 1 5 (by norm_num),
   diversity_penalty_profile.2.2.2.2.2 50 6 (by norm_num)⟩

lemma pick_priority_weight_cases (b1 b2 b3 b5 : Bool) :
    (normalizeWeights (adjustWeights b1 b2 b3 false b5)).pick_priority
      < (normalizeWeights (adjustWeights b1 b2 b3 true b5)).pick_priority := by
  cases b1 <;> cases b2 <;> cases b3 <;> cases b5 <;>
    norm_num [adjustWeights, baseWeights, normalizeWeights, Weights.total]

/-- C5: two draft states identical except for the banned list, one with six
or more bans and one with fewer, give strictly larger normalized
pick-priority weight in the state with six or more bans. -/
theorem many_bans_raise_pick_priority_weight (catalog : Catalog)
    (enemy ally : List String) (role : String) (bannedFew bannedMany : List String)
    (hfew : bannedFew.length < 6) (hmany : 6 ≤ bannedMany.length) :
    (calcDynamicWeights catalog bannedFew enemy ally role).pick_priority
      < (calcDynamicWeights catalog bannedMany enemy ally role).pick_priority := by
  unfold calcDynamicWeights
  rw [decide_eq_true hmany, decide_eq_false (Nat.not_le.mpr hfew)]
  exact pick_priority_weight_cases _ _ _ _

/-- Witness for C5 with zero bans against six bans. -/
theorem many_bans_raise_pick_priority_weight_witness :
    (calcDynamicWeights [] [] [] [] "mid").pick_priority
      < (calcDynamicWeights [] ["b1", "b2", "b3", "b4", "b5", "b6"] [] [] "mid").pick_priority :=
  many_bans_raise_pick_priority_weight [] [] [] "mid" []
    ["b1", "b2", "b3", "b4", "b5", "b6"] (by norm_num) (by norm_num)

/-- C7: for every catalog and hero, the counter score against an empty enemy
list and the synergy score with an empty ally list are both exactly 60. -/
theorem neutral_scores_on_empty (catalog : Catalog) (hero : Meta) :
    calcCounterScore catalog hero [] = 60 ∧ calcSynergyScore catalog hero [] = 60 :=
  ⟨rfl, rfl⟩

/-! ### Claims C6, C3, C8 -/

lemma laneFitAux_not_mem (l : List String) (t : String) :
    ∀ k : Nat, t ∉ l → laneFitAux l t k = 5 := by
  induction l with
  | nil => intro k _; rfl
  | cons x xs ih =>
    intro k h
    simp only [List.mem_cons, not_or] at h
    simp only [laneFitAux]
    rw [if_neg fun he => h.1 he.symm]
    exact ih (k + 1) h.2

lemma laneFitAux_first_occ (l : List String) (t : String) :
    ∀ (i k : Nat), l.Nodup → l[i]? = some t →
      laneFitAux l t k =
        if k + i = 0 then 100 else if k + i = 1 then 75
        else if k + i = 2 then 50 else 30 := by
  induction l with
  | nil => intro i k _ hget; simp at hget
  | cons x xs ih =>
    intro i k hnd hget
    rw [List.nodup_cons] at hnd
    cases i with
    | zero =>
      rw [List.getElem?_cons_zero] at hget
      injection hget with hx
      simp only [laneFitAux, if_pos hx, Nat.add_zero]
    | succ j =>
      rw [List.getElem?_cons_succ] at hget
      have htmem : t ∈ xs := List.getElem?_mem hget
      have hxt : ¬x = t := fun he => hnd.1 (he ▸ htmem)
      simp only [laneFitAux, if_neg hxt]
      rw [ih j (k + 1) hnd.2 hget]
      have harith : k + 1 + j = k + (j + 1) := by omega
      rw [harith]

/-- C6: the lane-fit score is 100, 75, 50 or 30 according to the position of
the requested lane (mapped through the role map) in the ordered lane-affinity
list of the hero — first, second, third, any later — is 5 when the lane is
absent from the list, and in particular is 5 for every requested lane when
the hero has no lane-affinity data at all. -/
theorem lane_fit_by_position (hero : Meta) (role : String)
    (hnd : (hero.roles.lane_priority.getD []).Nodup) :
    (∀ i : Nat, (hero.roles.lane_priority.getD [])[i]? = some (roleMapD role) →
      calcRoleFitScore hero role =
        if i = 0 then 100 else if i = 1 then 75 else if i = 2 then 50 else 30)
    ∧ (roleMapD role ∉ hero.roles.lane_priority.getD [] → calcRoleFitScore hero role = 5)
    ∧ (hero.roles.lane_priority.getD [] = [] → calcRoleFitScore hero role = 5) := by
  refine ⟨?_, ?_, ?_⟩
  · intro i hget
    unfold calcRoleFitScore
    rw [laneFitAux_first_occ _ _ i 0 hnd hget]
    simp
  · intro hnm
    exact laneFitAux_not_mem _ _ 0 hnm
  · intro hempty
    unfold calcRoleFitScore
    rw [hempty]
    rfl

/-- A hero whose affinity list is Jungle then Mid Lane, for the C6 witness. -/
def laneDemoMeta : Meta :=
  { roles := { lane_priority := some ["Jungle", "Mid Lane"] } }

/-- Witness for C6: second-listed lane scores 75, and a hero with no
lane-affinity data scores 5. -/
theorem lane_fit_by_position_witness :
    calcRoleFitScore laneDemoMeta "mid" = 75 ∧ calcRoleFitScore default "gold" = 5 := by
  constructor
  · have h := (lane_fit_by_position laneDemoMeta "mid" (by decide)).1 1 (by rfl)
    simpa using h
  · exact (lane_fit_by_position default "gold" (by decide)).2.2 rfl

/-- The all-zero suggestion-count table (a fresh engine). -/
def emptyCount : String → Nat := fun _ => 0

/-- Counterexample for C3: with an empty catalog (no scorable hero at all)
the suggestion request returns the plain empty suggestion list with the
counter table untouched — the very same value an exhausted candidate pool
returns — and no error of any kind: the embedded operation is total and has
no error outcome, so no configuration error distinct from the normal empty
result is surfaced. -/
theorem empty_catalog_not_distinguished :
    getPickSuggestions [] emptyCount [] [] [] "mid" = ([], emptyCount)
    ∧ getPickSuggestions [("Layla", default)] emptyCount ["Layla"] [] [] "mid"
        = ([], emptyCount) :=
  ⟨rfl, rfl⟩

/-- C3 amended: when the catalog contains no scorable heroes, a suggestion
request returns the normal empty suggestion list (and leaves the diversity
table unchanged); the empty-catalog case is not distinguished from a normal
empty result and no configuration error is raised. -/
theorem empty_catalog_returns_normal_empty (count : String → Nat)
    (banned enemy ally : List String) (role : String) :
    getPickSuggestions [] count banned enemy ally role = ([], count) := rfl

/-- C8: when every catalog hero is banned or picked by either side, the
suggestion request returns an empty list (and no error: the operation is
total), leaving the diversity table unchanged. -/
theorem exhausted_pool_returns_empty (catalog : Catalog) (count : String → Nat)
    (banned enemy ally : List String) (role : String)
    (h : ∀ n ∈ catalog.map Prod.fst, n ∈ banned ++ enemy ++ ally) :
    getPickSuggestions catalog count banned enemy ally role = ([], count) := by
  have hc : candidateNames catalog banned enemy ally = [] := by
    unfold candidateNames
    rw [List.filter_eq_nil_iff]
    intro a ha
    have := h a ha
    simp only [List.mem_append] at this
    simp only [decide_eq_true_eq, not_not, List.mem_append]
    tauto
  unfold getPickSuggestions
  rw [if_pos hc]

/-- Two-hero catalog used by several witnesses. -/
def demoCatalog : Catalog := [("Layla", default), ("Zilong", default)]

/-- Witness for C8: both catalog heroes are banned or picked. -/
theorem exhausted_pool_returns_empty_witness :
    getPickSuggestions demoCatalog emptyCount ["Layla"] ["Zilong"] [] "mid"
      = ([], emptyCount) :=
  exhausted_pool_returns_empty demoCatalog emptyCount ["Layla"] ["Zilong"] [] "mid"
    (by decide)

/-! ### Claim C10 -/

lemma insertDesc_perm (s : Suggestion) (l : List Suggestion) :
    (insertDesc s l).Perm (s :: l) := by
  induction l with
  | nil => exact List.Perm.refl _
  | cons t ts ih =>
    unfold insertDesc
    split_ifs
    · exact List.Perm.refl _
    · exact (ih.cons t).trans (List.Perm.swap s t ts)

lemma sortDesc_perm (l : List Suggestion) : (sortDesc l).Perm l := by
  induction l with
  | nil => exact List.Perm.refl _
  | cons s ss ih => exact (insertDesc_perm s (sortDesc ss)).trans (ih.cons s)

lemma bumpCounts_eq (l : List Suggestion) :
    ∀ c : String → Nat, (l.map Suggestion.hero).Nodup →
      ∀ h : String, bumpCounts l c h =
        if h ∈ l.map Suggestion.hero then c h + 1 else c h := by
  induction l with
  | nil => intro c _ h; simp [bumpCounts]
  | cons s rest ih =>
    intro c hnd h
    rw [List.map_cons, List.nodup_cons] at hnd
    simp only [bumpCounts]
    rw [ih _ hnd.2 h]
    by_cases hh : h = s.hero
    · subst hh
      rw [if_neg hnd.1]
      simp [List.mem_cons]
    · simp [List.mem_cons, hh]

/-- C10: a ranking call returns at most five suggestions, and its only effect
on the shared diversity table is to increment the count of exactly the heroes
of the returned suggestion list by one each, leaving every other count
unchanged; no count ever decreases.  The hypothesis is the Python dict
invariant that catalog keys are distinct. -/
theorem ranking_updates_diversity_counts (catalog : Catalog) (count : String → Nat)
    (banned enemy ally : List String) (role : String)
    (hk : (catalog.map Prod.fst).Nodup) :
    (getPickSuggestions catalog count banned enemy ally role).1.length ≤ 5
    ∧ (∀ h : String,
        (getPickSuggestions catalog count banned enemy ally role).2 h =
          if h ∈ (getPickSuggestions catalog count banned enemy ally role).1.map
              Suggestion.hero
          then count h + 1 else count h)
    ∧ (∀ h : String,
        count h ≤ (getPickSuggestions catalog count banned enemy ally role).2 h) := by
  have hcand : (candidateNames catalog banned enemy ally).Nodup := by
    unfold candidateNames
    exact hk.filter _
  unfold getPickSuggestions
  split_ifs with hnil
  · exact ⟨by simp, fun h => by simp, fun h => le_refl _⟩
  · dsimp only
    set scored := (candidateNames catalog banned enemy ally).map
      (scoreCandidate catalog count banned enemy ally role) with hscored
    have hmap : scored.map Suggestion.hero = candidateNames catalog banned enemy ally := by
      rw [hscored, List.map_map]
      exact List.map_id _
    have hnodsorted : ((sortDesc scored).map Suggestion.hero).Nodup := by
      have hperm : ((sortDesc scored).map Suggestion.hero).Perm
          (scored.map Suggestion.hero) := (sortDesc_perm scored).map _
      rw [hmap] at hperm
      exact hperm.nodup_iff.mpr hcand
    have hnodtop : (((sortDesc scored).take 5).map Suggestion.hero).Nodup := by
      rw [List.map_take]
      exact ((List.map Suggestion.hero (sortDesc scored)).take_sublist 5).nodup hnodsorted
    refine ⟨?_, ?_, ?_⟩
    · simp [List.length_take_le]
    · intro h
      exact bumpCounts_eq _ count hnodtop h
    · intro h
      rw [bumpCounts_eq _ count hnodtop h]
      split_ifs <;> omega

/-- Witness for C10 on a concrete two-hero catalog. -/
theorem ranking_updates_diversity_counts_witness :
    (getPickSuggestions demoCatalog emptyCount [] [] [] "mid").1.length ≤ 5 :=
  (ranking_updates_diversity_counts demoCatalog emptyCount [] [] [] "mid" (by decide)).1

/-! ### Claim C9 -/

lemma mem_take_of_append {α : Type} (x : α) (l1 l2 : List α) :
    ∀ n : Nat, l1.length < n → x ∈ (l1 ++ x :: l2).take n := by
  induction l1 with
  | nil =>
    intro n hn
    cases n with
    | zero => omega
    | succ m => simp
  | cons y ys ih =>
    intro n hn
    cases n with
    | zero => omega
    | succ m =>
      simp only [List.cons_append, List.take_succ_cons, List.mem_cons]
      exact Or.inr (ih m (by simpa using hn))

lemma mem_take_five_blocks {α : Type} (a preR postR c d e5 : List α) (r : α)
    (h : a.length + preR.length < 5) :
    r ∈ (a ++ (preR ++ r :: postR) ++ c ++ d ++ e5).take 5 := by
  have heq : a ++ (preR ++ r :: postR) ++ c ++ d ++ e5
      = (a ++ preR) ++ r :: (postR ++ c ++ d ++ e5) := by
    simp [List.append_assoc]
  rw [heq]
  apply mem_take_of_append
  rw [List.length_append]
  omega

lemma legacyCounterScore_reasons (hero : String) (enemies : List String)
    (h : enemies ≠ []) :
    (legacyCounterScore hero enemies).2 = enemies.filterMap (counterReasonFor hero) := by
  unfold legacyCounterScore
  rw [if_neg h]

/-- C9 amended: a registry counter score of at least 85 of a candidate
against an enemy pick does put the hard-counter reason for that enemy into
the reason list the legacy engine computes for the candidate, provided fewer
than five reasons precede it — the synergy-factor reasons plus the counter
reasons of earlier enemy picks; the final truncation keeps only the first
five reasons, so with five or more preceding reasons the hard-counter reason
is dropped. -/
theorem hard_counter_reason_when_in_first_five (db : LegacyDB) (hero : String)
    (req : DraftRequest) (pre post : List String) (e : String)
    (hsplit : req.enemy_picks = pre ++ e :: post)
    (hhard : 85 ≤ getCounterScore hero e)
    (hroom : ((legacySynergyScore db hero req.ally_picks).2).length
        + (pre.filterMap (counterReasonFor hero)).length < 5) :
    Reason.hardCounters e (getCounterScore hero e) ∈ (legacyHeroScore db hero req).2 := by
  have hne : req.enemy_picks ≠ [] := by
    rw [hsplit]
    simp
  have hfe : counterReasonFor hero e
      = some (Reason.hardCounters e (getCounterScore hero e)) := by
    unfold counterReasonFor
    rw [if_pos hhard]
  unfold legacyHeroScore
  dsimp only
  rw [legacyCounterScore_reasons hero _ hne, hsplit, List.filterMap_append]
  simp only [List.filterMap_cons, hfe]
  exact mem_take_five_blocks _ _ _ _ _ _ _ hroom

/-- The heroes appearing in the C9 scenario. -/
def c9Names : List String := ["Khufra", "Yin", "Gusion", "Ling", "Lancelot", "Fanny"]

/-- Legacy heroes_data snapshot for the C9 scenario: the six heroes above,
all classified Fighter, with no recorded matches and no player preference
rows. -/
def c9db : LegacyDB where
  roleOf := fun h => if c9Names.contains h then some "Fighter" else none
  known := fun h => c9Names.contains h
  matchPerf := fun _ => []
  pref := fun _ _ => none

/-- Draft request of the C9 counterexample: one ally, four enemies, all of
whom the candidate Khufra hard-counters through the registry. -/
def c9req : DraftRequest where
  ally_picks := ["Yin"]
  enemy_picks := ["Gusion", "Ling", "Lancelot", "Fanny"]

lemma c9_syn2 : (legacySynergyScore c9db "Khufra" ["Yin"]).2 =
    [Reason.excellentSynergy "Yin" 90, Reason.strongTeamComp 90] := by
  norm_num [legacySynergyScore, getTeamSynergy, allPairs, legacyRolesFn, c9db, c9Names,
    getSynergyScore, synergyReasons, synergyReasonFor, tableLookup, alistLookup,
    synergyData, roleSynergies]
  decide

lemma c9_cnt2 : (legacyCounterScore "Khufra" ["Gusion", "Ling", "Lancelot", "Fanny"]).2 =
    [Reason.hardCounters "Gusion" 88, Reason.hardCounters "Ling" 90,
     Reason.hardCounters "Lancelot" 85, Reason.hardCounters "Fanny" 95] := by
  rw [legacyCounterScore_reasons _ _ (by decide)]
  decide

lemma c9_rb2 : (legacyRoleBalance c9db "Khufra" ["Yin"]).2 =
    [Reason.duplicateRole "Fighter"] := by decide

lemma c9_ms2 : (legacyMetaScore c9db "Khufra").2 = [Reason.limitedMatchData] := by decide

lemma c9_pf2 : (legacyPrefScore c9db "Khufra" none).2 = [] := rfl

lemma c9_reasons : (legacyHeroScore c9db "Khufra" c9req).2 =
    [Reason.excellentSynergy "Yin" 90, Reason.strongTeamComp 90,
     Reason.hardCounters "Gusion" 88, Reason.hardCounters "Ling" 90,
     Reason.hardCounters "Lancelot" 85] := by
  unfold legacyHeroScore
  dsimp only
  rw [show c9req.ally_picks = ["Yin"] from rfl,
    show c9req.enemy_picks = ["Gusion", "Ling", "Lancelot", "Fanny"] from rfl,
    show c9req.player_id = none from rfl,
    c9_syn2, c9_cnt2, c9_rb2, c9_ms2, c9_pf2]
  rfl

/-- Counterexample for C9: the candidate Khufra has registry counter score 95
(at least 85) against the enemy pick Fanny, yet the reason list computed for
Khufra does not contain the hard-counter reason for Fanny: two synergy
reasons and the hard-counter reasons of the three earlier enemy picks fill
the five-reason budget, and the truncation drops the Fanny reason. -/
theorem hard_counter_reason_counterexample :
    getCounterScore "Khufra" "Fanny" = 95
    ∧ (85 : ℚ) ≤ 95
    ∧ (legacyHeroScore c9db "Khufra" c9req).2 =
        [Reason.excellentSynergy "Yin" 90, Reason.strongTeamComp 90,
         Reason.hardCounters "Gusion" 88, Reason.hardCounters "Ling" 90,
         Reason.hardCounters "Lancelot" 85]
    ∧ Reason.hardCounters "Fanny" 95 ∉ (legacyHeroScore c9db "Khufra" c9req).2 := by
  refine ⟨by decide, by decide, c9_reasons, ?_⟩
  rw [c9_reasons]
  decide

/-- Draft request with a single enemy, for the C9 witness. -/
def c9reqShort : DraftRequest where
  ally_picks := ["Yin"]
  enemy_picks := ["Gusion"]

/-- Witness for the amended C9: with only one enemy pick the hard-counter
reason for it is within the first five reasons and is returned. -/
theorem hard_counter_reason_witness :
    (85 : ℚ) ≤ getCounterScore "Khufra" "Gusion"
    ∧ Reason.hardCounters "Gusion" (getCounterScore "Khufra" "Gusion")
        ∈ (legacyHeroScore c9db "Khufra" c9reqShort).2 := by
  refine ⟨by decide, ?_⟩
  apply hard_counter_reason_when_in_first_five c9db "Khufra" c9reqShort [] [] "Gusion" rfl
    (by decide)
  rw [show c9reqShort.ally_picks = ["Yin"] from rfl, c9_syn2]
  decide

end DraftSensei
